import Mathlib

/-!
Shallow embedding of `SNSoap.py` (class `SNSoap`, its constructor,
`_client`, and the `run_query` generator).

Modelling choices:

* The remote SOAP service is an oracle: `Service` packages the behaviour of
  `client.service.getKeys` (a function from the keyword arguments to a
  `getKeys` response) and `client.service.getRecords` (a function from the
  encoded query string to an opaque page object of type `Page`).
* `run_query` is a Python generator; consuming the returned generator to
  exhaustion (or to its raising point) produces a finite trace of events:
  remote `getKeys` calls, remote `getRecords` calls, and yielded pages.
  `run_query` here returns the post-state of the object, the event trace, and
  the error (if any) at which the generator raises; laziness is recovered by
  `consumedEvents`, which cuts the trace at the point where the caller has
  pulled a given number of pages (a generator suspends right after a yield,
  so exactly the events up to and including the k-th yield have happened).
* Machine-level details kept: `page_size = int(page_size)` is modelled by
  taking `page_size : Int`; `assert(1 <= page_size <= 250)` failing raises
  (spec name: `InvalidArgumentError`); `int(response['count'])` on an
  unparsable string raises `ValueError`; `response['sys_id'][0]` on an empty
  list raises `IndexError`; `client.service.getKeys(**query_parms)` with
  `query_parms = None` raises `TypeError` before any remote call.
-/

namespace SNSoapModel

/-- Keyword arguments of a SOAP call (`query_parms` dictionary): field name to
match criterion, e.g. `[("active", "false")]`. -/
abbrev Parms := List (String × String)

/-- Model of `requests.auth.HTTPBasicAuth(username, password)`. -/
structure HTTPBasicAuth where
  username : String
  password : String
deriving DecidableEq

/-- Model of a `requests.Session()` whose `auth` has been set. -/
structure Session where
  auth : HTTPBasicAuth
deriving DecidableEq

/-- Model of `zeep.transports.Transport(session=self.session)`. -/
structure Transport where
  session : Session
deriving DecidableEq

/-- Connection context stored by `SNSoap.__init__` (lines 22-26): the
instance name (field `instance` in the source, a reserved word in Lean),
the authenticated session and the zeep transport. -/
structure SNSoap where
  sn_instance : String
  session : Session
  transport : Transport
deriving DecidableEq

/-- Model of `SNSoap.__init__(self, instance, username, password)`
(lines 22-26). -/
def SNSoap.init (sn_instance username password : String) : SNSoap :=
  let session : Session := { auth := { username := username, password := password } }
  { sn_instance := sn_instance
    session := session
    transport := { session := session } }

/-- Deserialized `getKeys` response: `response['count']` (a string the code
feeds to `int(...)`) and `response['sys_id']` (a list holding one
comma-joined identifier string). -/
structure GetKeysResponse where
  count : String
  sys_id : List String
deriving DecidableEq

/-- Behaviour of the remote service bound behind `client.service`:
`getKeys` maps the keyword arguments to the response the server returns,
`getRecords` maps the encoded query string to the (opaque) page object. -/
structure Service (Page : Type) where
  getKeys : Parms → GetKeysResponse
  getRecords : String → Page

/-- Model of the `zeep.CachingClient` built by `_client` (lines 28-32):
the WSDL URL, the transport, and the bound service. -/
structure Client (Page : Type) where
  wsdl_url : String
  transport : Transport
  service : Service Page

/-- Model of `SNSoap._client(self, tablename)` (lines 28-32): builds the WSDL
URL `https://%s.service-now.com/%s.do?WSDL` from the instance and table name
and binds a client over the stored transport.  The service behaviour is the
oracle parameter. -/
def SNSoap._client {Page : Type} (s : SNSoap) (service : Service Page)
    (tablename : String) : Client Page :=
  { wsdl_url := "https://" ++ s.sn_instance ++ ".service-now.com/" ++ tablename ++ ".do?WSDL"
    transport := s.transport
    service := service }

/-- Errors `run_query` can raise.  `invalidArgument` is the failing
`assert(1 <= page_size <= 250)` (the spec's `InvalidArgumentError`);
`typeError` is Python's `TypeError` from `getKeys(**None)`; `valueError` is
`int(...)` on an unparsable count; `indexError` is `response['sys_id'][0]` on
an empty list. -/
inductive QueryError where
  | invalidArgument
  | typeError
  | valueError
  | indexError
deriving DecidableEq

/-- Whether an error raised by `run_query` belongs to the spec's documented
error taxonomy (section 7): of the errors `run_query` itself can raise, only
the page-size assertion (`InvalidArgumentError`) is documented. -/
def inDocumentedTaxonomy : QueryError → Bool
  | QueryError.invalidArgument => true
  | _ => false

/-- Observable events of one `run_query` invocation: a remote `getKeys` call
(with its keyword arguments), a remote `getRecords` call (with its encoded
query), and a yielded page. -/
inductive Event (Page : Type) where
  | callGetKeys (parms : Parms)
  | callGetRecords (query : String)
  | yieldPage (page : Page)
deriving DecidableEq

/-- Accumulator pass of `pyInt?`: consume decimal digits, failing on any
other character. -/
def decNat? : List Char → Nat → Option Nat
  | [], acc => some acc
  | c :: rest, acc =>
    if c.isDigit then decNat? rest (acc * 10 + (c.toNat - '0'.toNat)) else none

/-- Model of Python's `int(...)` applied to the platform's count string
(line 72): an optional minus sign followed by decimal digits.  (Python's
`int` additionally strips surrounding whitespace and accepts underscores;
the count strings the platform returns contain neither.)  Anything else
raises `ValueError`, modelled as `none`. -/
def pyInt? (s : String) : Option Int :=
  match s.data with
  | [] => none
  | '-' :: rest =>
    match rest with
    | [] => none
    | _ => (decNat? rest 0).map fun n => -(n : Int)
  | cs => (decNat? cs 0).map fun n => (n : Int)

/-- Model of Python's `s.split(',')`: split on every comma, keeping empty
pieces (`''.split(',') == ['']`). -/
def pySplitAux (sep : Char) : List Char → List Char → List String
  | [], acc => [String.mk acc.reverse]
  | c :: rest, acc =>
    if c = sep then String.mk acc.reverse :: pySplitAux sep rest []
    else pySplitAux sep rest (c :: acc)

/-- Model of `response['sys_id'][0].split(',')` (line 75). -/
def pySplit (s : String) : List String :=
  pySplitAux ',' s.data []

/-- Model of lines 77-83: `sys_ids = set(sys_ids)`, discard `None`, back to a
list.  CPython's set iteration order is unspecified (the spec calls the order
"acceptable nondeterminism"); the model fixes the order produced by
`List.dedup` on the null-free list. -/
def dedupClean (sys_ids : List (Option String)) : List String :=
  (sys_ids.filterMap id).dedup

/-- The set of non-null identifiers in a caller-supplied collection. -/
def idSet (sys_ids : List (Option String)) : Finset String :=
  (sys_ids.filterMap id).toFinset

/-- Encoded query built for one chunk (line 89):
`'sys_idIN' + ','.join(chunk)`. -/
def queryOf (chunk : List String) : String :=
  "sys_idIN" ++ String.intercalate "," chunk

/-- The chunks visited by the paging loop (lines 86-91): slices
`sys_ids[start : start + page_size]` for `start = 0, page_size, ...` while
`start < len(sys_ids)`.  The recursion consumes the remaining suffix
`sys_ids[start:]`; for `page_size ≥ 1` (guaranteed by the assert)
`(x :: rest).drop page_size = rest.drop (page_size - 1)`, which also makes
the recursion terminate without a side condition. -/
def chunkList (page_size : Nat) : List String → List (List String)
  | [] => []
  | x :: rest =>
    (x :: rest).take page_size :: chunkList page_size (rest.drop (page_size - 1))
termination_by l => l.length
decreasing_by
  simp only [List.length_drop, List.length_cons]
  omega

/-- Trace of the paging loop (lines 86-91): for each chunk, in order, one
remote `getRecords` call with the encoded query of the chunk immediately
followed by the yield of the page the server returned for it. -/
def pagingEvents {Page : Type} (records : String → Page) (page_size : Nat) :
    List String → List (Event Page)
  | [] => []
  | x :: rest =>
    Event.callGetRecords (queryOf ((x :: rest).take page_size)) ::
    Event.yieldPage (records (queryOf ((x :: rest).take page_size))) ::
    pagingEvents records page_size (rest.drop (page_size - 1))
termination_by l => l.length
decreasing_by
  simp only [List.length_drop, List.length_cons]
  omega

/-- Identifier resolution (lines 68-83).  Returns which `getKeys` call was
made (if any) and either the identifier list the paging loop will use or the
error raised while resolving:
* `sys_ids = None, query_parms = None`: `getKeys(**None)` raises `TypeError`
  before any remote call;
* `sys_ids = None` otherwise: one `getKeys` call; count `0` gives the empty
  list, a nonzero count gives `response['sys_id'][0].split(',')`;
* caller-supplied `sys_ids`: deduplicate and drop `None`, no remote call. -/
def resolveIds (getKeys : Parms → GetKeysResponse) (query_parms : Option Parms)
    (sys_ids : Option (List (Option String))) :
    Option Parms × Except QueryError (List String) :=
  match sys_ids with
  | none =>
    match query_parms with
    | none => (none, Except.error QueryError.typeError)
    | some parms =>
      let response := getKeys parms
      (some parms,
        match pyInt? response.count with
        | none => Except.error QueryError.valueError
        | some c =>
          if c = 0 then Except.ok []
          else
            match response.sys_id.head? with
            | none => Except.error QueryError.indexError
            | some s0 => Except.ok (pySplit s0))
  | some ids => (none, Except.ok (dedupClean ids))

/-- Model of `run_query(self, table, query_parms=None, sys_ids=None,
page_size=250)` (lines 34-91), consumed to exhaustion: the post-state of the
object, the event trace, and the error at which the generator raises (if
any).  Mirrors the source: assert the page size, bind the client, resolve
the identifier list (lines 68-83 via `resolveIds`), then page through
`getRecords`. -/
def run_query {Page : Type} (s : SNSoap) (service : Service Page) (table : String)
    (query_parms : Option Parms) (sys_ids : Option (List (Option String)))
    (page_size : Int) : SNSoap × List (Event Page) × Option QueryError :=
  if 1 ≤ page_size ∧ page_size ≤ 250 then
    let client := s._client service table
    match resolveIds client.service.getKeys query_parms sys_ids with
    | (called, res) =>
      let keysEvents : List (Event Page) :=
        match called with
        | none => []
        | some parms => [Event.callGetKeys parms]
      match res with
      | Except.error e => (s, keysEvents, some e)
      | Except.ok ids =>
        (s, keysEvents ++ pagingEvents client.service.getRecords page_size.toNat ids,
          none)
  else (s, [], some QueryError.invalidArgument)

/-- Queries of the remote `getRecords` calls recorded in a trace. -/
def recordsCalls {Page : Type} (t : List (Event Page)) : List String :=
  t.filterMap fun e =>
    match e with
    | Event.callGetRecords q => some q
    | _ => none

/-- Keyword arguments of the remote `getKeys` calls recorded in a trace. -/
def keysCalls {Page : Type} (t : List (Event Page)) : List Parms :=
  t.filterMap fun e =>
    match e with
    | Event.callGetKeys p => some p
    | _ => none

/-- Pages yielded in a trace. -/
def pages {Page : Type} (t : List (Event Page)) : List Page :=
  t.filterMap fun e =>
    match e with
    | Event.yieldPage p => some p
    | _ => none

/-- Events that have actually happened once the caller has pulled `k` pages
from the generator: everything up to and including the `k`-th yield (a
generator suspends immediately after a yield and performs no further work
until pulled again). -/
def consumedEvents {Page : Type} : Nat → List (Event Page) → List (Event Page)
  | _, [] => []
  | 0, _ :: _ => []
  | k + 1, Event.yieldPage p :: rest => Event.yieldPage p :: consumedEvents k rest
  | k + 1, Event.callGetKeys parms :: rest =>
      Event.callGetKeys parms :: consumedEvents (k + 1) rest
  | k + 1, Event.callGetRecords q :: rest =>
      Event.callGetRecords q :: consumedEvents (k + 1) rest

/-- Ceiling division on naturals, `⌈n / m⌉`. -/
def ceilDiv (n m : Nat) : Nat :=
  (n + m - 1) / m

/-- The call/yield block the paging loop appends to the trace for one
chunk: the remote `getRecords` call with the chunk's encoded query followed
by the yield of the returned page. -/
def pageBlock {Page : Type} (records : String → Page) (c : List String) :
    List (Event Page) :=
  [Event.callGetRecords (queryOf c), Event.yieldPage (records (queryOf c))]

/-- Connection fixture used to instantiate concrete scenarios. -/
def snTest : SNSoap :=
  SNSoap.init "dev12345" "admin" "secret"

/-- Service fixture whose lookups report a zero count; pages are opaque
`Unit` values. -/
def svcEmpty : Service Unit :=
  { getKeys := fun _ => { count := "0", sys_id := [] }
    getRecords := fun _ => () }

/-- Service fixture whose lookup reports two identifiers, `x` and `y`. -/
def svcTwoKeys : Service Unit :=
  { getKeys := fun _ => { count := "2", sys_id := ["x,y"] }
    getRecords := fun _ => () }

/-- Service fixture whose lookup repeats the identifier `x`. -/
def svcDupKeys : Service Unit :=
  { getKeys := fun _ => { count := "2", sys_id := ["x,x"] }
    getRecords := fun _ => () }

@[simp]
theorem client_service {Page : Type} (s : SNSoap) (service : Service Page)
    (t : String) : (s._client service t).service = service := rfl

@[simp]
theorem recordsCalls_nil {Page : Type} :
    recordsCalls ([] : List (Event Page)) = [] := rfl

@[simp]
theorem recordsCalls_cons_keys {Page : Type} (p : Parms) (t : List (Event Page)) :
    recordsCalls (Event.callGetKeys p :: t) = recordsCalls t := rfl

@[simp]
theorem recordsCalls_cons_call {Page : Type} (q : String) (t : List (Event Page)) :
    recordsCalls (Event.callGetRecords q :: t) = q :: recordsCalls t := rfl

@[simp]
theorem recordsCalls_cons_yield {Page : Type} (p : Page) (t : List (Event Page)) :
    recordsCalls (Event.yieldPage p :: t) = recordsCalls t := rfl

@[simp]
theorem recordsCalls_append {Page : Type} (t u : List (Event Page)) :
    recordsCalls (t ++ u) = recordsCalls t ++ recordsCalls u := by
  simp [recordsCalls]

@[simp]
theorem keysCalls_nil {Page : Type} :
    keysCalls ([] : List (Event Page)) = [] := rfl

@[simp]
theorem keysCalls_cons_keys {Page : Type} (p : Parms) (t : List (Event Page)) :
    keysCalls (Event.callGetKeys p :: t) = p :: keysCalls t := rfl

@[simp]
theorem keysCalls_cons_call {Page : Type} (q : String) (t : List (Event Page)) :
    keysCalls (Event.callGetRecords q :: t) = keysCalls t := rfl

@[simp]
theorem keysCalls_cons_yield {Page : Type} (p : Page) (t : List (Event Page)) :
    keysCalls (Event.yieldPage p :: t) = keysCalls t := rfl

@[simp]
theorem keysCalls_append {Page : Type} (t u : List (Event Page)) :
    keysCalls (t ++ u) = keysCalls t ++ keysCalls u := by
  simp [keysCalls]

@[simp]
theorem pages_nil {Page : Type} : pages ([] : List (Event Page)) = [] := rfl

@[simp]
theorem pages_cons_keys {Page : Type} (p : Parms) (t : List (Event Page)) :
    pages (Event.callGetKeys p :: t) = pages t := rfl

@[simp]
theorem pages_cons_call {Page : Type} (q : String) (t : List (Event Page)) :
    pages (Event.callGetRecords q :: t) = pages t := rfl

@[simp]
theorem pages_cons_yield {Page : Type} (p : Page) (t : List (Event Page)) :
    pages (Event.yieldPage p :: t) = p :: pages t := rfl

@[simp]
theorem pages_append {Page : Type} (t u : List (Event Page)) :
    pages (t ++ u) = pages t ++ pages u := by
  simp [pages]

@[simp]
theorem consumedEvents_nil {Page : Type} (k : Nat) :
    consumedEvents k ([] : List (Event Page)) = [] := by
  cases k <;> rfl

@[simp]
theorem consumedEvents_zero {Page : Type} (t : List (Event Page)) :
    consumedEvents 0 t = [] := by
  cases t <;> rfl

@[simp]
theorem consumedEvents_succ_yield {Page : Type} (k : Nat) (p : Page)
    (t : List (Event Page)) :
    consumedEvents (k + 1) (Event.yieldPage p :: t) =
      Event.yieldPage p :: consumedEvents k t := rfl

@[simp]
theorem consumedEvents_succ_keys {Page : Type} (k : Nat) (p : Parms)
    (t : List (Event Page)) :
    consumedEvents (k + 1) (Event.callGetKeys p :: t) =
      Event.callGetKeys p :: consumedEvents (k + 1) t := rfl

@[simp]
theorem consumedEvents_succ_call {Page : Type} (k : Nat) (q : String)
    (t : List (Event Page)) :
    consumedEvents (k + 1) (Event.callGetRecords q :: t) =
      Event.callGetRecords q :: consumedEvents (k + 1) t := rfl

theorem ceilDiv_zero_succ (k : Nat) : ceilDiv 0 (k + 1) = 0 := by
  have h : 0 + (k + 1) - 1 = k := by omega
  simp only [ceilDiv, h]
  exact Nat.div_eq_of_lt (by omega)

theorem ceilDiv_succ_succ (n k : Nat) : ceilDiv (n + 1) (k + 1) = n / (k + 1) + 1 := by
  have h : n + 1 + (k + 1) - 1 = n + (k + 1) := by omega
  simp only [ceilDiv, h, Nat.add_div_right _ (Nat.succ_pos k)]

theorem ceilDiv_rec (n k : Nat) :
    ceilDiv (n - k) (k + 1) + 1 = ceilDiv (n + 1) (k + 1) := by
  rw [ceilDiv_succ_succ]
  rcases le_or_lt n k with h | h
  · have h0 : n - k = 0 := by omega
    rw [h0, ceilDiv_zero_succ, Nat.div_eq_of_lt (by omega)]
  · obtain ⟨m, rfl⟩ : ∃ m, n = m + (k + 1) := ⟨n - (k + 1), by omega⟩
    have h1 : m + (k + 1) - k = m + 1 := by omega
    rw [h1, ceilDiv_succ_succ, Nat.add_div_right _ (Nat.succ_pos k)]

/-- The chunks concatenate back to the identifier list: the paging loop
visits the identifiers in order without gaps or overlaps. -/
theorem chunkList_flatten (k : Nat) (l : List String) :
    (chunkList (k + 1) l).flatten = l := by
  induction l using chunkList.induct (k + 1) with
  | case1 => simp [chunkList]
  | case2 x rest ih =>
    simp only [Nat.add_sub_cancel] at ih
    simp only [chunkList, Nat.add_sub_cancel, List.flatten_cons, List.take_succ_cons,
      List.cons_append, ih]
    simp [List.take_append_drop]

/-- Each iteration advances `start` by `page_size`, so there are exactly
`⌈length / page_size⌉` chunks. -/
theorem chunkList_length (k : Nat) (l : List String) :
    (chunkList (k + 1) l).length = ceilDiv l.length (k + 1) := by
  induction l using chunkList.induct (k + 1) with
  | case1 => rw [chunkList]; simp [ceilDiv_zero_succ]
  | case2 x rest ih =>
    simp only [Nat.add_sub_cancel] at ih
    simp only [chunkList, Nat.add_sub_cancel, List.length_cons, ih, List.length_drop]
    exact ceilDiv_rec rest.length k

/-- Every chunk is a nonempty slice of at most `page_size` identifiers. -/
theorem chunkList_mem (k : Nat) (l : List String) (c : List String)
    (hc : c ∈ chunkList (k + 1) l) : c.length ≤ k + 1 ∧ c ≠ [] := by
  induction l using chunkList.induct (k + 1) with
  | case1 => simp [chunkList] at hc
  | case2 x rest ih =>
    simp only [Nat.add_sub_cancel] at ih
    simp only [chunkList, Nat.add_sub_cancel, List.mem_cons] at hc
    rcases hc with rfl | hc
    · exact ⟨by simp,
        by simp [List.take_succ_cons]⟩
    · exact ih hc

/-- A nonempty list of at most `page_size` identifiers is a single chunk. -/
theorem chunkList_eq_single (k : Nat) (l : List String) (h0 : l ≠ [])
    (h1 : l.length ≤ k + 1) : chunkList (k + 1) l = [l] := by
  match l with
  | [] => exact absurd rfl h0
  | x :: rest =>
    simp only [chunkList, Nat.add_sub_cancel]
    have hr : rest.length ≤ k := by simpa using h1
    rw [List.take_of_length_le (by simpa using h1), List.drop_eq_nil_of_le hr]
    simp [chunkList]

/-- A list longer than `page_size` but at most `2 * page_size` splits into
exactly two chunks. -/
theorem chunkList_eq_two (k : Nat) (l : List String) (h1 : k + 1 < l.length)
    (h2 : l.length ≤ 2 * (k + 1)) :
    chunkList (k + 1) l = [l.take (k + 1), l.drop (k + 1)] := by
  match l with
  | [] => simp at h1
  | x :: rest =>
    simp only [List.length_cons] at h1 h2
    simp only [chunkList, Nat.add_sub_cancel]
    congr 1
    have hd : (x :: rest).drop (k + 1) = rest.drop k := by simp
    rw [hd]
    apply chunkList_eq_single
    · have hlen : (rest.drop k).length = rest.length - k := List.length_drop k rest
      have hpos : 0 < (rest.drop k).length := by omega
      exact List.length_pos.mp hpos
    · rw [List.length_drop]
      omega

/-- The paging-loop trace is the concatenation of one call/yield block per
chunk, in chunk order. -/
theorem pagingEvents_eq_chunks {Page : Type} (records : String → Page) (k : Nat)
    (l : List String) :
    pagingEvents records (k + 1) l = (chunkList (k + 1) l).flatMap (pageBlock records) := by
  induction l using chunkList.induct (k + 1) with
  | case1 => simp [pagingEvents, chunkList]
  | case2 x rest ih =>
    simp only [Nat.add_sub_cancel] at ih
    simp only [pagingEvents, chunkList, Nat.add_sub_cancel, List.flatMap_cons, ih, pageBlock]
    rfl

theorem recordsCalls_chunks {Page : Type} (records : String → Page)
    (blocks : List (List String)) :
    recordsCalls (blocks.flatMap (pageBlock records)) = blocks.map queryOf := by
  induction blocks with
  | nil => simp
  | cons c bs ih => simp [List.flatMap_cons, pageBlock, ih]

theorem pages_chunks {Page : Type} (records : String → Page)
    (blocks : List (List String)) :
    pages (blocks.flatMap (pageBlock records)) = blocks.map fun c => records (queryOf c) := by
  induction blocks with
  | nil => simp
  | cons c bs ih => simp [List.flatMap_cons, pageBlock, ih]

theorem keysCalls_chunks {Page : Type} (records : String → Page)
    (blocks : List (List String)) :
    keysCalls (blocks.flatMap (pageBlock records)) = [] := by
  induction blocks with
  | nil => simp
  | cons c bs ih => simp [List.flatMap_cons, pageBlock, ih]

/-- Pulling `k` pages from the paging loop performs exactly `k` `getRecords`
calls, as long as at least `k` chunks exist. -/
theorem consumed_chunks_count {Page : Type} (records : String → Page)
    (blocks : List (List String)) (k : Nat) (hk : k ≤ blocks.length) :
    (recordsCalls (consumedEvents k (blocks.flatMap (pageBlock records)))).length = k := by
  induction blocks generalizing k with
  | nil =>
    simp only [List.length_nil, Nat.le_zero] at hk
    simp [hk]
  | cons c bs ih =>
    cases k with
    | zero => simp
    | succ k' =>
      simp only [List.flatMap_cons, pageBlock, List.cons_append, List.nil_append,
        consumedEvents_succ_call, consumedEvents_succ_yield, recordsCalls_cons_call,
        recordsCalls_cons_yield, List.length_cons]
      rw [ih k' (by simpa using hk)]

/-- Lines 64-66: a page size outside `[1, 250]` fails the assertion before
any remote call is made or any page is yielded. -/
theorem run_query_invalid_eq {Page : Type} (s : SNSoap) (service : Service Page)
    (table : String) (qp : Option Parms) (sy : Option (List (Option String)))
    (ps : Int) (hps : ¬ (1 ≤ ps ∧ ps ≤ 250)) :
    run_query s service table qp sy ps = (s, [], some QueryError.invalidArgument) := by
  simp only [run_query, if_neg hps]

/-- Lines 76-91 with caller-supplied identifiers: no `getKeys` call, the
pool is the deduplicated null-free list, `query_parms` is not consulted. -/
theorem run_query_supplied_eq {Page : Type} (s : SNSoap) (service : Service Page)
    (table : String) (qp : Option Parms) (ids : List (Option String)) (ps : Int)
    (hp : 1 ≤ ps ∧ ps ≤ 250) :
    run_query s service table qp (some ids) ps =
      (s, pagingEvents service.getRecords ps.toNat (dedupClean ids), none) := by
  simp [run_query, hp, resolveIds]

/-- Lines 68-71 with both `query_parms` and `sys_ids` omitted:
`getKeys(**None)` raises `TypeError` before the remote call happens. -/
theorem run_query_noparms_eq {Page : Type} (s : SNSoap) (service : Service Page)
    (table : String) (ps : Int) (hp : 1 ≤ ps ∧ ps ≤ 250) :
    run_query s service table none none ps = (s, [], some QueryError.typeError) := by
  simp [run_query, hp, resolveIds]

/-- Lines 68-75 when the reported count parses to zero: one `getKeys` call,
an empty identifier list, and a loop that never runs. -/
theorem run_query_lookup_zero_eq {Page : Type} (s : SNSoap) (service : Service Page)
    (table : String) (parms : Parms) (ps : Int) (hp : 1 ≤ ps ∧ ps ≤ 250)
    (hc : pyInt? (service.getKeys parms).count = some 0) :
    run_query s service table (some parms) none ps =
      (s, [Event.callGetKeys parms], none) := by
  simp [run_query, hp, resolveIds, hc, pagingEvents]

/-- Lines 68-75 when the reported count parses to a nonzero value and the
response carries an identifier string: one `getKeys` call, then paging over
the comma-split of the first `sys_id` entry. -/
theorem run_query_lookup_pos_eq {Page : Type} (s : SNSoap) (service : Service Page)
    (table : String) (parms : Parms) (ps : Int) (hp : 1 ≤ ps ∧ ps ≤ 250)
    (c : Int) (hc : pyInt? (service.getKeys parms).count = some c) (hc0 : c ≠ 0)
    (s0 : String) (hh : (service.getKeys parms).sys_id.head? = some s0) :
    run_query s service table (some parms) none ps =
      (s, Event.callGetKeys parms ::
            pagingEvents service.getRecords ps.toNat (pySplit s0), none) := by
  simp [run_query, hp, resolveIds, hc, hc0, hh]

/-- Line 72 when the count string does not parse as an integer:
`int(...)` raises `ValueError` after the `getKeys` call. -/
theorem run_query_lookup_valueerror_eq {Page : Type} (s : SNSoap) (service : Service Page)
    (table : String) (parms : Parms) (ps : Int) (hp : 1 ≤ ps ∧ ps ≤ 250)
    (hc : pyInt? (service.getKeys parms).count = none) :
    run_query s service table (some parms) none ps =
      (s, [Event.callGetKeys parms], some QueryError.valueError) := by
  simp [run_query, hp, resolveIds, hc]

/-- Line 75 when the count is nonzero but `response['sys_id']` is empty:
`[0]` raises `IndexError` after the `getKeys` call. -/
theorem run_query_lookup_indexerror_eq {Page : Type} (s : SNSoap) (service : Service Page)
    (table : String) (parms : Parms) (ps : Int) (hp : 1 ≤ ps ∧ ps ≤ 250)
    (c : Int) (hc : pyInt? (service.getKeys parms).count = some c) (hc0 : c ≠ 0)
    (hh : (service.getKeys parms).sys_id.head? = none) :
    run_query s service table (some parms) none ps =
      (s, [Event.callGetKeys parms], some QueryError.indexError) := by
  simp [run_query, hp, resolveIds, hc, hc0, hh]

/-- Every branch of `run_query` returns the object state unchanged: the
source never assigns to `self`. -/
theorem run_query_fst_eq {Page : Type} (s : SNSoap) (service : Service Page)
    (table : String) (qp : Option Parms) (sy : Option (List (Option String)))
    (ps : Int) : (run_query s service table qp sy ps).1 = s := by
  by_cases hp : 1 ≤ ps ∧ ps ≤ 250
  · rcases sy with _ | ids
    · rcases qp with _ | parms
      · rw [run_query_noparms_eq s service table ps hp]
      · rcases hc : pyInt? (service.getKeys parms).count with _ | c
        · rw [run_query_lookup_valueerror_eq s service table parms ps hp hc]
        · by_cases hc0 : c = 0
          · subst hc0
            rw [run_query_lookup_zero_eq s service table parms ps hp hc]
          · rcases hh : (service.getKeys parms).sys_id.head? with _ | s0
            · rw [run_query_lookup_indexerror_eq s service table parms ps hp c hc hc0 hh]
            · rw [run_query_lookup_pos_eq s service table parms ps hp c hc hc0 s0 hh]
    · rw [run_query_supplied_eq s service table qp ids ps hp]
  · rw [run_query_invalid_eq s service table qp sy ps hp]

/-- Number of pages the paging loop yields for a given identifier list. -/
theorem pages_pagingEvents_length {Page : Type} (records : String → Page)
    (k : Nat) (l : List String) :
    (pages (pagingEvents records (k + 1) l)).length = ceilDiv l.length (k + 1) := by
  rw [pagingEvents_eq_chunks, pages_chunks, List.length_map, chunkList_length]

/-- Number of pages `run_query` yields for caller-supplied identifiers. -/
theorem run_query_supplied_pages_length {Page : Type} (s : SNSoap) (service : Service Page)
    (table : String) (qp : Option Parms) (ids : List (Option String)) (ps : Int)
    (hp : 1 ≤ ps ∧ ps ≤ 250) :
    (pages (run_query s service table qp (some ids) ps).2.1).length
      = ceilDiv (dedupClean ids).length ps.toNat := by
  rw [run_query_supplied_eq s service table qp ids ps hp]
  obtain ⟨m, hm⟩ : ∃ m, ps.toNat = m + 1 := ⟨ps.toNat - 1, by omega⟩
  rw [hm]
  exact pages_pagingEvents_length service.getRecords m (dedupClean ids)

/-- Deduplication does not change a list viewed as a finite set. -/
theorem dedup_toFinset (l : List String) : l.dedup.toFinset = l.toFinset :=
  List.toFinset.ext fun x => by simp [List.mem_dedup]

/-- A nonempty identifier list that fits in one page produces exactly one
call/yield block. -/
theorem pagingEvents_single {Page : Type} (records : String → Page) (k : Nat)
    (l : List String) (h0 : l ≠ []) (h1 : l.length ≤ k + 1) :
    pagingEvents records (k + 1) l
      = [Event.callGetRecords (queryOf l), Event.yieldPage (records (queryOf l))] := by
  rw [pagingEvents_eq_chunks, chunkList_eq_single k l h0 h1]
  simp [pageBlock]

/-- Pulling `k` pages from the paging loop issues exactly `k` `getRecords`
calls when at least `k` pages are available. -/
theorem consumed_pagingEvents_count {Page : Type} (records : String → Page)
    (m : Nat) (l : List String) (k : Nat)
    (hk : k ≤ (pages (pagingEvents records (m + 1) l)).length) :
    (recordsCalls (consumedEvents k (pagingEvents records (m + 1) l))).length = k := by
  rw [pagingEvents_eq_chunks] at hk ⊢
  rw [pages_chunks, List.length_map] at hk
  exact consumed_chunks_count records _ k hk

/-- A leading `getKeys` event changes neither which `getRecords` calls are
consumed nor when the consumption cut happens. -/
theorem consumed_cons_keys_records {Page : Type} (parms : Parms)
    (t : List (Event Page)) (k : Nat) :
    recordsCalls (consumedEvents k (Event.callGetKeys parms :: t))
      = recordsCalls (consumedEvents k t) := by
  cases k with
  | zero => simp
  | succ k' => simp

/-- C2: for every `pageSize` outside `[1, 250]`, `run_query` fails with the
page-size assertion error (the spec's `InvalidArgumentError`) and the event
trace is empty — zero `getKeys` calls and zero `getRecords` calls, so the
failure occurs before any remote call is made. -/
theorem c2_invalid_page_size {Page : Type} (s : SNSoap) (service : Service Page)
    (table : String) (qp : Option Parms) (sy : Option (List (Option String)))
    (ps : Int) (hps : ¬ (1 ≤ ps ∧ ps ≤ 250)) :
    run_query s service table qp sy ps = (s, [], some QueryError.invalidArgument) ∧
    keysCalls (run_query s service table qp sy ps).2.1 = [] ∧
    recordsCalls (run_query s service table qp sy ps).2.1 = [] := by
  have h := run_query_invalid_eq s service table qp sy ps hps
  exact ⟨h, by simp [h, keysCalls], by simp [h, recordsCalls]⟩

/-- Witness for C2 at `pageSize = 0`. -/
theorem c2_invalid_page_size_witness :
    (¬ (1 ≤ (0 : Int) ∧ (0 : Int) ≤ 250)) ∧
    (run_query snTest svcEmpty "incident" none none 0
        = (snTest, [], some QueryError.invalidArgument) ∧
      keysCalls (run_query snTest svcEmpty "incident" none none 0).2.1 = [] ∧
      recordsCalls (run_query snTest svcEmpty "incident" none none 0).2.1 = []) :=
  ⟨by decide, c2_invalid_page_size snTest svcEmpty "incident" none none 0 (by decide)⟩

/-- C3: with identifiers omitted and a key-lookup response whose count
parses to zero, `run_query` yields zero pages and the whole trace is the
single `getKeys` call — no `getRecords` call — and the generator finishes
without error. -/
theorem c3_zero_count {Page : Type} (s : SNSoap) (service : Service Page)
    (table : String) (parms : Parms) (ps : Int) (hp : 1 ≤ ps ∧ ps ≤ 250)
    (hc : pyInt? (service.getKeys parms).count = some 0) :
    (run_query s service table (some parms) none ps).2.1 = [Event.callGetKeys parms] ∧
    pages (run_query s service table (some parms) none ps).2.1 = [] ∧
    keysCalls (run_query s service table (some parms) none ps).2.1 = [parms] ∧
    recordsCalls (run_query s service table (some parms) none ps).2.1 = [] ∧
    (run_query s service table (some parms) none ps).2.2 = none := by
  have h := run_query_lookup_zero_eq s service table parms ps hp hc
  rw [h]
  simp

/-- Witness for C3: zero-count lookup at the default page size. -/
theorem c3_zero_count_witness :
    ((1 : Int) ≤ 250 ∧ (250 : Int) ≤ 250) ∧
    pyInt? (svcEmpty.getKeys []).count = some 0 ∧
    ((run_query snTest svcEmpty "incident" (some []) none 250).2.1
        = [Event.callGetKeys []] ∧
      pages (run_query snTest svcEmpty "incident" (some []) none 250).2.1 = [] ∧
      keysCalls (run_query snTest svcEmpty "incident" (some []) none 250).2.1 = [[]] ∧
      recordsCalls (run_query snTest svcEmpty "incident" (some []) none 250).2.1 = [] ∧
      (run_query snTest svcEmpty "incident" (some []) none 250).2.2 = none) :=
  ⟨by decide, by decide,
    c3_zero_count snTest svcEmpty "incident" [] 250 (by decide) (by decide)⟩

/-- C4: with caller-supplied identifiers the effective pool is exactly the
set of non-null input elements — duplicate-free, independent of input
ordering — and `query_parms` is never consulted; the pool of
`{"a", "b", None, "a"}` is exactly `{"a", "b"}`. -/
theorem c4_supplied_pool {Page : Type} (s : SNSoap) (service : Service Page)
    (table : String) (ids : List (Option String)) (ps : Int) :
    (dedupClean ids).Nodup ∧
    (dedupClean ids).toFinset = idSet ids ∧
    (∀ ids' : List (Option String), ids.Perm ids' →
      (dedupClean ids').toFinset = (dedupClean ids).toFinset) ∧
    (∀ qp qp' : Option Parms,
      run_query s service table qp (some ids) ps
        = run_query s service table qp' (some ids) ps) ∧
    (dedupClean [some "a", some "b", none, some "a"]).toFinset
      = ({"a", "b"} : Finset String) := by
  refine ⟨List.nodup_dedup _, ?_, ?_, ?_, by decide⟩
  · simp only [dedupClean, idSet]
    exact dedup_toFinset _
  · intro ids' hperm
    simp only [dedupClean]
    rw [dedup_toFinset, dedup_toFinset]
    exact (List.toFinset_eq_of_perm _ _ (hperm.filterMap id)).symm
  · intro qp qp'
    by_cases hp : 1 ≤ ps ∧ ps ≤ 250
    · rw [run_query_supplied_eq s service table qp ids ps hp,
        run_query_supplied_eq s service table qp' ids ps hp]
    · rw [run_query_invalid_eq s service table qp (some ids) ps hp,
        run_query_invalid_eq s service table qp' (some ids) ps hp]

/-- Witness for C4 at the spec's concrete input. -/
theorem c4_supplied_pool_witness :
    (dedupClean [some "a", some "b", none, some "a"]).Nodup ∧
    (dedupClean [some "a", some "b", none, some "a"]).toFinset
      = idSet [some "a", some "b", none, some "a"] ∧
    (∀ ids' : List (Option String),
      List.Perm [some "a", some "b", none, some "a"] ids' →
      (dedupClean ids').toFinset
        = (dedupClean [some "a", some "b", none, some "a"]).toFinset) ∧
    (∀ qp qp' : Option Parms,
      run_query snTest svcEmpty "incident" qp
          (some [some "a", some "b", none, some "a"]) 250
        = run_query snTest svcEmpty "incident" qp'
            (some [some "a", some "b", none, some "a"]) 250) ∧
    (dedupClean [some "a", some "b", none, some "a"]).toFinset
      = ({"a", "b"} : Finset String) :=
  c4_supplied_pool snTest svcEmpty "incident" [some "a", some "b", none, some "a"] 250

/-- C9: any `run_query` invocation returns the connection context unchanged
(instance name, session and transport stay as constructed), and nothing
carries over to a later invocation: a second query on the post-state gives
exactly what it gives on the original object. -/
theorem c9_state_frame {Page Page' : Type} (s : SNSoap) (service : Service Page)
    (service' : Service Page') (table table' : String) (qp qp' : Option Parms)
    (sy sy' : Option (List (Option String))) (ps ps' : Int) (i u pw : String) :
    (run_query s service table qp sy ps).1 = s ∧
    (run_query s service table qp sy ps).1.sn_instance = s.sn_instance ∧
    (run_query s service table qp sy ps).1.session = s.session ∧
    (run_query s service table qp sy ps).1.transport = s.transport ∧
    ((SNSoap.init i u pw).sn_instance = i ∧
      (SNSoap.init i u pw).session.auth = { username := u, password := pw } ∧
      (SNSoap.init i u pw).transport.session = (SNSoap.init i u pw).session) ∧
    run_query (run_query s service table qp sy ps).1 service' table' qp' sy' ps'
      = run_query s service' table' qp' sy' ps' := by
  have h := run_query_fst_eq s service table qp sy ps
  exact ⟨h, by rw [h], by rw [h], by rw [h], ⟨rfl, rfl, rfl⟩, by rw [h]⟩

/-- C10: with both `query_parms` and `sys_ids` omitted, consuming the
generator raises `TypeError` (from expanding `None` as keyword arguments to
`getKeys`), an error outside the documented taxonomy, and neither the key
lookup nor any `getRecords` call is performed. -/
theorem c10_no_parms_typeerror {Page : Type} (s : SNSoap) (service : Service Page)
    (table : String) (ps : Int) (hp : 1 ≤ ps ∧ ps ≤ 250) :
    run_query s service table none none ps = (s, [], some QueryError.typeError) ∧
    inDocumentedTaxonomy QueryError.typeError = false ∧
    keysCalls (run_query s service table none none ps).2.1 = [] ∧
    recordsCalls (run_query s service table none none ps).2.1 = [] := by
  have h := run_query_noparms_eq s service table ps hp
  exact ⟨h, rfl, by simp [h, keysCalls], by simp [h, recordsCalls]⟩

/-- Witness for C10 at the default page size. -/
theorem c10_no_parms_typeerror_witness :
    ((1 : Int) ≤ 250 ∧ (250 : Int) ≤ 250) ∧
    (run_query snTest svcEmpty "incident" none none 250
        = (snTest, [], some QueryError.typeError) ∧
      inDocumentedTaxonomy QueryError.typeError = false ∧
      keysCalls (run_query snTest svcEmpty "incident" none none 250).2.1 = [] ∧
      recordsCalls (run_query snTest svcEmpty "incident" none none 250).2.1 = []) :=
  ⟨by decide, c10_no_parms_typeerror snTest svcEmpty "incident" 250 (by decide)⟩

/-- C1: with caller-supplied identifiers and any page size in `[1, 250]`,
`run_query` issues one `getRecords` call and yields one page per chunk,
where the chunks are consecutive slices of at most `pageSize` identifiers of
the deduplicated pool, in pool order: they concatenate back to the pool, and
their union is exactly the non-null input identifier set.  For a pool of 260
identifiers at page size 250 this gives exactly 2 pages, of sizes 250 then
10. -/
theorem c1_chunk_partition {Page : Type} (s : SNSoap) (service : Service Page)
    (table : String) (qp : Option Parms) (ids : List (Option String)) (ps : Int)
    (hp : 1 ≤ ps ∧ ps ≤ 250) :
    recordsCalls (run_query s service table qp (some ids) ps).2.1
      = (chunkList ps.toNat (dedupClean ids)).map queryOf ∧
    pages (run_query s service table qp (some ids) ps).2.1
      = (chunkList ps.toNat (dedupClean ids)).map
          (fun c => service.getRecords (queryOf c)) ∧
    (chunkList ps.toNat (dedupClean ids)).flatten = dedupClean ids ∧
    (∀ c ∈ chunkList ps.toNat (dedupClean ids), c.length ≤ ps.toNat ∧ c ≠ []) ∧
    (chunkList ps.toNat (dedupClean ids)).flatten.toFinset = idSet ids ∧
    ((dedupClean ids).length = 260 → ps = 250 →
      (chunkList ps.toNat (dedupClean ids)).map List.length = [250, 10] ∧
      (pages (run_query s service table qp (some ids) ps).2.1).length = 2) := by
  obtain ⟨m, hm⟩ : ∃ m, ps.toNat = m + 1 := ⟨ps.toNat - 1, by omega⟩
  have ht : (run_query s service table qp (some ids) ps).2.1
      = pagingEvents service.getRecords (m + 1) (dedupClean ids) := by
    simp only [run_query_supplied_eq s service table qp ids ps hp, hm]
  refine ⟨?_, ?_, ?_, ?_, ?_, ?_⟩
  · rw [ht, pagingEvents_eq_chunks, recordsCalls_chunks, hm]
  · rw [ht, pagingEvents_eq_chunks, pages_chunks, hm]
  · rw [hm]
    exact chunkList_flatten m (dedupClean ids)
  · rw [hm]
    exact fun c hc => chunkList_mem m (dedupClean ids) c hc
  · rw [hm, chunkList_flatten]
    simp only [dedupClean, idSet]
    exact dedup_toFinset _
  · intro h260 h250
    subst h250
    have hm9 : m = 249 := by omega
    subst hm9
    have hck := chunkList_eq_two 249 (dedupClean ids) (by omega) (by omega)
    constructor
    · rw [hm, hck]
      simp only [List.map_cons, List.map_nil, List.length_take, List.length_drop, h260]
      norm_num
    · rw [ht, pagingEvents_eq_chunks, pages_chunks, hck]
      simp

/-- Witness for C1 at a one-identifier pool and page size 250. -/
theorem c1_chunk_partition_witness :
    ((1 : Int) ≤ 250 ∧ (250 : Int) ≤ 250) ∧
    (recordsCalls (run_query snTest svcEmpty "incident" none (some [some "a"]) 250).2.1
        = (chunkList (250 : Int).toNat (dedupClean [some "a"])).map queryOf ∧
      pages (run_query snTest svcEmpty "incident" none (some [some "a"]) 250).2.1
        = (chunkList (250 : Int).toNat (dedupClean [some "a"])).map
            (fun c => svcEmpty.getRecords (queryOf c)) ∧
      (chunkList (250 : Int).toNat (dedupClean [some "a"])).flatten
        = dedupClean [some "a"] ∧
      (∀ c ∈ chunkList (250 : Int).toNat (dedupClean [some "a"]),
        c.length ≤ (250 : Int).toNat ∧ c ≠ []) ∧
      (chunkList (250 : Int).toNat (dedupClean [some "a"])).flatten.toFinset
        = idSet [some "a"] ∧
      ((dedupClean [some "a"]).length = 260 → (250 : Int) = 250 →
        (chunkList (250 : Int).toNat (dedupClean [some "a"])).map List.length
          = [250, 10] ∧
        (pages (run_query snTest svcEmpty "incident" none
            (some [some "a"]) 250).2.1).length = 2)) :=
  ⟨by decide, c1_chunk_partition snTest svcEmpty "incident" none [some "a"] 250 (by decide)⟩

/-- C5: every records-fetch filter expression is the string `sys_idIN`
followed by the chunk's identifiers joined by commas, with no escaping of
identifier contents; in the lookup scenario with response
`{count := "2", sys_id := ["x,y"]}` at the default page size, the single
`getRecords` call's filter is `sys_idINx,y` — the embedded comma passes
through unescaped. -/
theorem c5_filter_expression {Page : Type} (s : SNSoap) (service : Service Page)
    (table : String) (qp : Option Parms) (parms : Parms)
    (ids : List (Option String)) (ps : Int) (hp : 1 ≤ ps ∧ ps ≤ 250) :
    recordsCalls (run_query s service table qp (some ids) ps).2.1
      = (chunkList ps.toNat (dedupClean ids)).map
          (fun c => "sys_idIN" ++ String.intercalate "," c) ∧
    (ps = 250 → service.getKeys parms = { count := "2", sys_id := ["x,y"] } →
      (run_query s service table (some parms) none ps).2.1
        = [Event.callGetKeys parms, Event.callGetRecords "sys_idINx,y",
           Event.yieldPage (service.getRecords "sys_idINx,y")] ∧
      recordsCalls (run_query s service table (some parms) none ps).2.1
        = ["sys_idINx,y"]) := by
  constructor
  · obtain ⟨m, hm⟩ : ∃ m, ps.toNat = m + 1 := ⟨ps.toNat - 1, by omega⟩
    have ht : (run_query s service table qp (some ids) ps).2.1
        = pagingEvents service.getRecords (m + 1) (dedupClean ids) := by
      simp only [run_query_supplied_eq s service table qp ids ps hp, hm]
    rw [ht, pagingEvents_eq_chunks, recordsCalls_chunks, hm]
    rfl
  · intro h250 hresp
    subst h250
    have hc : pyInt? (service.getKeys parms).count = some 2 := by
      rw [hresp]
      decide
    have hh : (service.getKeys parms).sys_id.head? = some "x,y" := by
      rw [hresp]
      rfl
    have h := run_query_lookup_pos_eq s service table parms 250 hp 2 hc
      (by decide) "x,y" hh
    have hsplit : pySplit "x,y" = ["x", "y"] := by decide
    have ht250 : (250 : Int).toNat = 249 + 1 := rfl
    have hpe : pagingEvents service.getRecords (249 + 1) ["x", "y"]
        = [Event.callGetRecords (queryOf ["x", "y"]),
           Event.yieldPage (service.getRecords (queryOf ["x", "y"]))] :=
      pagingEvents_single service.getRecords 249 ["x", "y"] (by simp) (by norm_num)
    have hq : queryOf ["x", "y"] = "sys_idINx,y" := rfl
    rw [h, hsplit, ht250, hpe, hq]
    exact ⟨rfl, by simp⟩

/-- Witness for C5 in the lookup scenario with response count `2` and
identifier string `x,y`. -/
theorem c5_filter_expression_witness :
    ((1 : Int) ≤ 250 ∧ (250 : Int) ≤ 250) ∧
    ((run_query snTest svcTwoKeys "incident" (some []) none 250).2.1
        = [Event.callGetKeys [], Event.callGetRecords "sys_idINx,y",
           Event.yieldPage (svcTwoKeys.getRecords "sys_idINx,y")] ∧
      recordsCalls (run_query snTest svcTwoKeys "incident" (some []) none 250).2.1
        = ["sys_idINx,y"]) :=
  ⟨by decide,
    (c5_filter_expression snTest svcTwoKeys "incident" none [] [] 250 (by decide)).2
      rfl (by decide)⟩

/-- C6 as stated is false on the lookup branch: a key-lookup response with
count `"2"` and comma-joined string `"x,x"` makes the identifier list used
for paging `["x", "x"]`, which contains a duplicate — the code never
deduplicates the parsed list — and the single records-fetch call then
queries the duplicated chunk. -/
theorem c6_counterexample :
    (resolveIds (fun _ => { count := "2", sys_id := ["x,x"] }) (some []) none).2
      = Except.ok ["x", "x"] ∧
    ¬ (["x", "x"] : List String).Nodup ∧
    recordsCalls (run_query snTest svcDupKeys "incident" (some []) none 250).2.1
      = ["sys_idINx,x"] := by
  refine ⟨rfl, by decide, ?_⟩
  have hc : pyInt? (svcDupKeys.getKeys []).count = some 2 := by decide
  have hh : (svcDupKeys.getKeys []).sys_id.head? = some "x,x" := rfl
  have h := run_query_lookup_pos_eq snTest svcDupKeys "incident" [] 250 (by decide)
    2 hc (by decide) "x,x" hh
  have hsplit : pySplit "x,x" = ["x", "x"] := by decide
  have ht250 : (250 : Int).toNat = 249 + 1 := rfl
  have hpe := pagingEvents_single svcDupKeys.getRecords 249 ["x", "x"]
    (by simp) (by norm_num)
  rw [h, hsplit, ht250, hpe]
  decide

/-- C6 amended: the identifier list used for paging never contains null
entries (in the caller-supplied branch nulls are removed, in the lookup
branch `split` only produces strings); with caller-supplied identifiers it
is additionally duplicate-free, but when identifiers are resolved through
the key lookup the list is exactly `split(',')` of the first `sys_id` entry
of the response, used as returned, without deduplication. -/
theorem c6_paging_list (getKeys : Parms → GetKeysResponse) (qp : Option Parms)
    (ids : List (Option String)) (parms : Parms) (c : Int) (s0 : String) :
    ((resolveIds getKeys qp (some ids)).2 = Except.ok (dedupClean ids) ∧
      (dedupClean ids).Nodup) ∧
    (pyInt? (getKeys parms).count = some c → c ≠ 0 →
      (getKeys parms).sys_id.head? = some s0 →
      (resolveIds getKeys (some parms) none).2 = Except.ok (pySplit s0)) := by
  refine ⟨⟨rfl, List.nodup_dedup _⟩, ?_⟩
  intro hc hc0 hh
  simp [resolveIds, hc, hc0, hh]

/-- Witness for C6's amended statement: a caller-supplied pool with a
duplicate and a null, and a lookup resolving to the split of `x,x`. -/
theorem c6_paging_list_witness :
    ((resolveIds svcDupKeys.getKeys none (some [some "a", none, some "a"])).2
        = Except.ok (dedupClean [some "a", none, some "a"]) ∧
      (dedupClean [some "a", none, some "a"]).Nodup) ∧
    (pyInt? (svcDupKeys.getKeys []).count = some 2 → (2 : Int) ≠ 0 →
      (svcDupKeys.getKeys []).sys_id.head? = some "x,x" →
      (resolveIds svcDupKeys.getKeys (some []) none).2
        = Except.ok (pySplit "x,x")) :=
  c6_paging_list svcDupKeys.getKeys none [some "a", none, some "a"] [] 2 "x,x"

/-- C7: the sequence is pull-based and does not prefetch: whenever the full
trace holds more than `k` pages, the events that have happened once the
caller has consumed exactly `k` pages contain exactly `k` `getRecords`
calls; in particular consuming only the first page of a multi-page sequence
issues exactly one records-fetch call. -/
theorem c7_lazy_paging {Page : Type} (s : SNSoap) (service : Service Page)
    (table : String) (qp : Option Parms) (sy : Option (List (Option String)))
    (ps : Int) (k : Nat)
    (hk : k < (pages (run_query s service table qp sy ps).2.1).length) :
    (recordsCalls (consumedEvents k
        (run_query s service table qp sy ps).2.1)).length = k := by
  by_cases hp : 1 ≤ ps ∧ ps ≤ 250
  · obtain ⟨m, hm⟩ : ∃ m, ps.toNat = m + 1 := ⟨ps.toNat - 1, by omega⟩
    rcases sy with _ | ids
    · rcases qp with _ | parms
      · have ht : (run_query s service table none none ps).2.1 = [] := by
          simp only [run_query_noparms_eq s service table ps hp]
        rw [ht] at hk
        exact absurd hk (by simp)
      · rcases hc : pyInt? (service.getKeys parms).count with _ | c
        · have ht : (run_query s service table (some parms) none ps).2.1
              = [Event.callGetKeys parms] := by
            simp only [run_query_lookup_valueerror_eq s service table parms ps hp hc]
          rw [ht] at hk
          exact absurd hk (by simp)
        · by_cases hc0 : c = 0
          · subst hc0
            have ht : (run_query s service table (some parms) none ps).2.1
                = [Event.callGetKeys parms] := by
              simp only [run_query_lookup_zero_eq s service table parms ps hp hc]
            rw [ht] at hk
            exact absurd hk (by simp)
          · rcases hh : (service.getKeys parms).sys_id.head? with _ | s0
            · have ht : (run_query s service table (some parms) none ps).2.1
                  = [Event.callGetKeys parms] := by
                simp only
                  [run_query_lookup_indexerror_eq s service table parms ps hp c hc hc0 hh]
              rw [ht] at hk
              exact absurd hk (by simp)
            · have ht : (run_query s service table (some parms) none ps).2.1
                  = Event.callGetKeys parms ::
                      pagingEvents service.getRecords (m + 1) (pySplit s0) := by
                simp only
                  [run_query_lookup_pos_eq s service table parms ps hp c hc hc0 s0 hh, hm]
              rw [ht] at hk ⊢
              rw [consumed_cons_keys_records]
              simp only [pages_cons_keys] at hk
              exact consumed_pagingEvents_count service.getRecords m (pySplit s0) k
                (by omega)
    · have ht : (run_query s service table qp (some ids) ps).2.1
          = pagingEvents service.getRecords (m + 1) (dedupClean ids) := by
        simp only [run_query_supplied_eq s service table qp ids ps hp, hm]
      rw [ht] at hk ⊢
      exact consumed_pagingEvents_count service.getRecords m (dedupClean ids) k
        (by omega)
  · have ht : (run_query s service table qp sy ps).2.1 = [] := by
      simp only [run_query_invalid_eq s service table qp sy ps hp]
    rw [ht] at hk
    exact absurd hk (by simp)

/-- Witness for C7: two one-identifier pages, only the first consumed. -/
theorem c7_lazy_paging_witness :
    1 < (pages (run_query snTest svcEmpty "incident" none
          (some [some "a", some "b"]) 1).2.1).length ∧
    (recordsCalls (consumedEvents 1 (run_query snTest svcEmpty "incident" none
          (some [some "a", some "b"]) 1).2.1)).length = 1 := by
  have h : 1 < (pages (run_query snTest svcEmpty "incident" none
      (some [some "a", some "b"]) 1).2.1).length := by
    rw [run_query_supplied_pages_length snTest svcEmpty "incident" none
      [some "a", some "b"] 1 (by decide)]
    decide
  exact ⟨h, c7_lazy_paging snTest svcEmpty "incident" none
    (some [some "a", some "b"]) 1 1 h⟩

/-- C8 as stated is false: `pageSize = 251` is `≥ 1`, yet with one supplied
identifier `run_query` fails the page-size assertion and yields 0 pages, not
the `⌈1 / 251⌉ = 1` pages the claim requires. -/
theorem c8_counterexample :
    ¬ ((pages (run_query snTest svcEmpty "incident" none
          (some [some "a"]) 251).2.1).length
        = ceilDiv (dedupClean [some "a"]).length 251) := by
  rw [run_query_invalid_eq snTest svcEmpty "incident" none (some [some "a"]) 251
    (by decide)]
  decide

/-- C8 amended: the sequence is always finite, and for every page size in
the asserted range `[1, 250]` an invocation with caller-supplied identifiers
yields exactly `⌈poolSize / pageSize⌉` pages (page sizes outside that range
fail the assertion and yield no pages, see C2). -/
theorem c8_page_count {Page : Type} (s : SNSoap) (service : Service Page)
    (table : String) (qp : Option Parms) (ids : List (Option String)) (ps : Int)
    (hp : 1 ≤ ps ∧ ps ≤ 250) :
    (pages (run_query s service table qp (some ids) ps).2.1).length
      = ceilDiv (dedupClean ids).length ps.toNat :=
  run_query_supplied_pages_length s service table qp ids ps hp

/-- Witness for C8's amended statement: 3 identifiers at page size 2 give
`⌈3/2⌉ = 2` pages. -/
theorem c8_page_count_witness :
    ((1 : Int) ≤ 2 ∧ (2 : Int) ≤ 250) ∧
    (pages (run_query snTest svcEmpty "incident" none
        (some [some "a", some "b", some "c"]) 2).2.1).length
      = ceilDiv (dedupClean [some "a", some "b", some "c"]).length (2 : Int).toNat :=
  ⟨by decide, c8_page_count snTest svcEmpty "incident" none
    [some "a", some "b", some "c"] 2 (by decide)⟩

end SNSoapModel
